import Mathlib

/-!
Shallow embedding of the aesthetic scorer of `src/fashion_ai_rankings.py`.

The scorer receives raw image bytes, decodes them with PIL
(`Image.open(BytesIO(b)).convert("RGB").resize((400, 400))`), computes four
sub-metrics (colorfulness, saturation, contrast, edge density) with numpy
float arithmetic, and combines them with fixed weights into one clipped score.

Modelling decisions:
* a pixel is a triple of 8-bit channel intensities, carried as naturals;
* an image is a height, a width and a total pixel map (positions outside the
  grid are never read by the statistics, which sum over `Finset.range`);
* numpy float32 arithmetic is idealised as real arithmetic, so `np.sqrt`
  becomes `Real.sqrt`, `np.mean`/`np.std` become exact population statistics;
* the PIL decode-convert-resize step is a third-party library call, so
  `compute_aesthetic_score` takes it as a parameter producing either the
  400x400 pixel map of the reference frame or failure (the `except` branch);
* PIL colour-space conversions are modelled from Pillow's C implementation:
  the HSV saturation byte is `255 * (maxc - minc) / maxc` with integer
  division (0 when `maxc = minc`), the "L" luminance byte is
  `(19595*R + 38470*G + 7471*B) >> 16`, and `ImageFilter.FIND_EDGES` is the
  3x3 kernel `(-1 .. 8 .. -1)` clamped to `0..255` with border pixels copied
  from the input.
-/

namespace FashionAI

/-- Pixel of the RGB reference frame: three 8-bit channel intensities. -/
structure Pix where
  r : ℕ
  g : ℕ
  b : ℕ
deriving DecidableEq

/-- An image: height, width and a total pixel map.  Positions outside the
`h × w` grid are irrelevant: every statistic below ranges over
`Finset.range h ×ˢ Finset.range w`. -/
structure Img where
  h : ℕ
  w : ℕ
  pix : ℕ → ℕ → Pix

noncomputable section

/-- Embedding of `np.clip(x, 0, 100)`. -/
def clip (x : ℝ) : ℝ := max 0 (min x 100)

/-- Sum of a real-valued channel over all positions of an `h × w` grid. -/
def gridSum (h w : ℕ) (f : ℕ → ℕ → ℝ) : ℝ :=
  ∑ i ∈ Finset.range h, ∑ j ∈ Finset.range w, f i j

/-- Embedding of `np.mean` over an `h × w` array. -/
def gridMean (h w : ℕ) (f : ℕ → ℕ → ℝ) : ℝ := gridSum h w f / (h * w)

/-- Population variance over an `h × w` array (what `np.std` squares). -/
def gridVar (h w : ℕ) (f : ℕ → ℕ → ℝ) : ℝ :=
  gridSum h w (fun i j => (f i j - gridMean h w f) ^ 2) / (h * w)

/-- Embedding of `np.std` over an `h × w` array: the population standard
deviation, the square root of the mean squared deviation from the mean. -/
def gridStd (h w : ℕ) (f : ℕ → ℕ → ℝ) : ℝ := Real.sqrt (gridVar h w f)

/-- Red-green opponent channel of `colorfulness_score`: `rg = np.abs(R - G)`
computed in float. -/
def rgChan (img : Img) : ℕ → ℕ → ℝ := fun i j =>
  |((img.pix i j).r : ℝ) - ((img.pix i j).g : ℝ)|

/-- Yellow-blue opponent channel of `colorfulness_score`:
`yb = np.abs(0.5 * (R + G) - B)` computed in float. -/
def ybChan (img : Img) : ℕ → ℕ → ℝ := fun i j =>
  |0.5 * (((img.pix i j).r : ℝ) + ((img.pix i j).g : ℝ)) - ((img.pix i j).b : ℝ)|

/-- Embedding of `colorfulness_score` (lines 46-62 of the source): the
Hasler-Süsstrunk style measure
`sqrt(std_rg^2 + std_yb^2) + 0.3 * sqrt(mean_rg^2 + mean_yb^2)`,
normalised by `np.clip((score / 60.0) * 100.0, 0, 100)`.  The source's
`img.convert("RGB")` is the identity here because the model image is
already RGB. -/
def colorfulness_score (img : Img) : ℝ :=
  let std_rg := gridStd img.h img.w (rgChan img)
  let std_yb := gridStd img.h img.w (ybChan img)
  let mean_rg := gridMean img.h img.w (rgChan img)
  let mean_yb := gridMean img.h img.w (ybChan img)
  let score := Real.sqrt (std_rg ^ 2 + std_yb ^ 2)
    + 0.3 * Real.sqrt (mean_rg ^ 2 + mean_yb ^ 2)
  clip ((score / 60.0) * 100.0)

/-- The 8-bit saturation byte of Pillow's RGB→HSV conversion
(`rgb2hsv_row` in Pillow's `convert.c`): `255 * (maxc - minc) / maxc`
with C integer division, and `0` when `maxc = minc`. -/
def satChan (p : Pix) : ℕ :=
  let maxc := max p.r (max p.g p.b)
  let minc := min p.r (min p.g p.b)
  if maxc = minc then 0 else 255 * (maxc - minc) / maxc

/-- Embedding of `saturation_score` (lines 64-68 of the source): the mean of
the 8-bit HSV saturation channel, normalised by
`np.clip((mean / 255.0) * 100.0, 0, 100)`. -/
def saturation_score (img : Img) : ℝ :=
  clip ((gridMean img.h img.w (fun i j => (satChan (img.pix i j) : ℝ)) / 255.0) * 100.0)

/-- The 8-bit luminance byte of Pillow's RGB→"L" conversion (`L24` in
Pillow's `convert.c`): `(19595*R + 38470*G + 7471*B) >> 16`, the ITU-R 601
luma weights 0.299/0.587/0.114 in 16-bit fixed point. -/
def lumChan (p : Pix) : ℕ := (19595 * p.r + 38470 * p.g + 7471 * p.b) / 65536

/-- Embedding of `contrast_score` (lines 70-74 of the source): the population
standard deviation of the luminance channel, normalised by
`np.clip((std / 80.0) * 100.0, 0, 100)`. -/
def contrast_score (img : Img) : ℝ :=
  clip ((gridStd img.h img.w (fun i j => (lumChan (img.pix i j) : ℝ)) / 80.0) * 100.0)

/-- Embedding of `ImageFilter.FIND_EDGES` on an 8-bit single-channel image:
the 3x3 kernel `(-1 -1 -1; -1 8 -1; -1 -1 -1)` with scale 1 and offset 0,
the result clamped to `0..255`; border pixels are copied unchanged from the
input, as Pillow's `ImagingFilter` does. -/
def findEdges (h w : ℕ) (g : ℕ → ℕ → ℕ) : ℕ → ℕ → ℕ := fun i j =>
  if i = 0 ∨ i = h - 1 ∨ j = 0 ∨ j = w - 1 then g i j
  else
    (min (8 * (g i j : ℤ)
      - ((g (i-1) (j-1) : ℤ) + (g (i-1) j : ℤ) + (g (i-1) (j+1) : ℤ)
        + (g i (j-1) : ℤ) + (g i (j+1) : ℤ)
        + (g (i+1) (j-1) : ℤ) + (g (i+1) j : ℤ) + (g (i+1) (j+1) : ℤ))) 255).toNat

/-- Number of positions of the `h × w` grid whose value strictly exceeds `t`. -/
def countOver (h w : ℕ) (g : ℕ → ℕ → ℕ) (t : ℕ) : ℕ :=
  ((Finset.range h ×ˢ Finset.range w).filter fun q => t < g q.1 q.2).card

/-- Embedding of `edge_density_score` (lines 76-83 of the source): grayscale
conversion, `FIND_EDGES`, then `np.mean(arr > 30.0)` — the mean of the 0/1
indicator of the strict threshold — normalised by
`np.clip(prop * 100.0, 0, 100)`. -/
def edge_density_score (img : Img) : ℝ :=
  let e := findEdges img.h img.w (fun i j => lumChan (img.pix i j))
  let prop := gridMean img.h img.w (fun i j => if 30 < e i j then 1 else 0)
  clip (prop * 100.0)

/-- The 400×400 RGB reference frame built from a decoded pixel map
(the result of `.convert("RGB").resize((400, 400))`). -/
def refFrame (p : ℕ → ℕ → Pix) : Img := ⟨400, 400, p⟩

/-- Embedding of `compute_aesthetic_score` (lines 85-100 of the source).
The decode-convert-resize step
`Image.open(BytesIO(image_bytes)).convert("RGB").resize((400, 400))` is a
PIL library call, passed in as the `decode` parameter: `none` is the
`except Exception: return 0.0` branch, `some p` the successfully decoded
400×400 reference frame.  On success the four sub-metrics are combined as
`0.35*c + 0.25*s + 0.25*co + 0.15*e` and clipped to `[0, 100]`. -/
def compute_aesthetic_score (decode : List ℕ → Option (ℕ → ℕ → Pix))
    (image_bytes : List ℕ) : ℝ :=
  match decode image_bytes with
  | none => 0.0
  | some p =>
    let img := refFrame p
    let c := colorfulness_score img
    let s := saturation_score img
    let co := contrast_score img
    let e := edge_density_score img
    clip (0.35 * c + 0.25 * s + 0.25 * co + 0.15 * e)

/-- A constant all-black pixel map, used as a concrete decoded frame. -/
def constPix : ℕ → ℕ → Pix := fun _ _ => ⟨0, 0, 0⟩

end

/-! Helper lemmas shared by the claim theorems. -/

theorem clip_nonneg (x : ℝ) : 0 ≤ clip x := le_max_left 0 _

theorem clip_le_hundred (x : ℝ) : clip x ≤ 100 :=
  max_le (by norm_num) (min_le_right x 100)

theorem clip_eq_of_mem {x : ℝ} (h0 : 0 ≤ x) (h1 : x ≤ 100) : clip x = x := by
  unfold clip
  rw [min_eq_left h1, max_eq_right h0]

theorem colorfulness_score_nonneg (img : Img) : 0 ≤ colorfulness_score img :=
  clip_nonneg _

theorem colorfulness_score_le (img : Img) : colorfulness_score img ≤ 100 :=
  clip_le_hundred _

theorem saturation_score_nonneg (img : Img) : 0 ≤ saturation_score img :=
  clip_nonneg _

theorem saturation_score_le (img : Img) : saturation_score img ≤ 100 :=
  clip_le_hundred _

theorem contrast_score_nonneg (img : Img) : 0 ≤ contrast_score img :=
  clip_nonneg _

theorem contrast_score_le (img : Img) : contrast_score img ≤ 100 :=
  clip_le_hundred _

theorem edge_density_score_nonneg (img : Img) : 0 ≤ edge_density_score img :=
  clip_nonneg _

theorem edge_density_score_le (img : Img) : edge_density_score img ≤ 100 :=
  clip_le_hundred _

/-- Unfolding `compute_aesthetic_score` on a successful decode. -/
theorem score_eq_clip_of_decode (decode : List ℕ → Option (ℕ → ℕ → Pix))
    (bs : List ℕ) (p : ℕ → ℕ → Pix) (hd : decode bs = some p) :
    compute_aesthetic_score decode bs =
      clip (0.35 * colorfulness_score (refFrame p) + 0.25 * saturation_score (refFrame p)
        + 0.25 * contrast_score (refFrame p) + 0.15 * edge_density_score (refFrame p)) := by
  unfold compute_aesthetic_score
  rw [hd]

/-- The weighted combination of four values in [0, 100] is nonnegative. -/
theorem wsum_nonneg {c s co e : ℝ} (hc0 : 0 ≤ c) (hs0 : 0 ≤ s) (hco0 : 0 ≤ co)
    (he0 : 0 ≤ e) : 0 ≤ 0.35 * c + 0.25 * s + 0.25 * co + 0.15 * e := by
  have h1 : 0 ≤ 0.35 * c := by positivity
  have h2 : 0 ≤ 0.25 * s := by positivity
  have h3 : 0 ≤ 0.25 * co := by positivity
  have h4 : 0 ≤ 0.15 * e := by positivity
  linarith

/-- The weighted combination of four values in [0, 100] is at most 100,
because the weights are nonnegative and sum to 1. -/
theorem wsum_le_hundred {c s co e : ℝ} (hc1 : c ≤ 100) (hs1 : s ≤ 100)
    (hco1 : co ≤ 100) (he1 : e ≤ 100) :
    0.35 * c + 0.25 * s + 0.25 * co + 0.15 * e ≤ 100 := by
  have h1 : 0.35 * c ≤ 0.35 * 100 := by linarith
  have h2 : 0.25 * s ≤ 0.25 * 100 := by linarith
  have h3 : 0.25 * co ≤ 0.25 * 100 := by linarith
  have h4 : 0.15 * e ≤ 0.15 * 100 := by linarith
  linarith

/-- The double sum of a 0/1 indicator over the grid counts the positions
satisfying the predicate. -/
theorem gridSum_indicator (h w : ℕ) (g : ℕ → ℕ → ℕ) (t : ℕ) :
    gridSum h w (fun i j => if t < g i j then 1 else 0) =
      (countOver h w g t : ℝ) := by
  unfold gridSum countOver
  rw [Finset.card_filter, Finset.sum_product]
  push_cast
  rfl

/-! The claim theorems. -/

/-- Claim C1: for every byte sequence and every decode behaviour,
`compute_aesthetic_score` is a total function of the input bytes whose value
is a (finite) real number in the closed range [0, 100]; both the
decode-failure branch and the successful branch, in which the four
sub-metric computations run outside the try-block, land in the range. -/
theorem C1_compute_aesthetic_score_total
    (decode : List ℕ → Option (ℕ → ℕ → Pix)) (bs : List ℕ) :
    0 ≤ compute_aesthetic_score decode bs ∧
      compute_aesthetic_score decode bs ≤ 100 := by
  unfold compute_aesthetic_score
  cases decode bs with
  | none => norm_num
  | some p => exact ⟨clip_nonneg _, clip_le_hundred _⟩

/-- Claim C2: when the decode-convert-resize step fails, the scorer returns
exactly 0.0; the `except` branch is the only thing that runs, so in this
total model no exception reaches the caller. -/
theorem C2_score_zero_on_decode_failure
    (decode : List ℕ → Option (ℕ → ℕ → Pix)) (bs : List ℕ)
    (hd : decode bs = none) :
    compute_aesthetic_score decode bs = 0 := by
  unfold compute_aesthetic_score
  rw [hd]
  norm_num

theorem C2_witness : compute_aesthetic_score (fun _ => none) [] = 0 :=
  C2_score_zero_on_decode_failure (fun _ => none) [] rfl

/-- Claim C3: on every successful decode, the final score is the weighted
combination `0.35*c + 0.25*s + 0.25*co + 0.15*e` of the four sub-metric
scores of the 400×400 RGB reference frame, clipped to [0, 100]. -/
theorem C3_score_is_weighted_combination
    (decode : List ℕ → Option (ℕ → ℕ → Pix)) (bs : List ℕ)
    (p : ℕ → ℕ → Pix) (hd : decode bs = some p) :
    compute_aesthetic_score decode bs =
      clip (0.35 * colorfulness_score (refFrame p)
        + 0.25 * saturation_score (refFrame p)
        + 0.25 * contrast_score (refFrame p)
        + 0.15 * edge_density_score (refFrame p)) :=
  score_eq_clip_of_decode decode bs p hd

theorem C3_witness :
    compute_aesthetic_score (fun _ => some constPix) [] =
      clip (0.35 * colorfulness_score (refFrame constPix)
        + 0.25 * saturation_score (refFrame constPix)
        + 0.25 * contrast_score (refFrame constPix)
        + 0.15 * edge_density_score (refFrame constPix)) :=
  C3_score_is_weighted_combination (fun _ => some constPix) [] constPix rfl

/-- Claim C4: the colorfulness sub-metric is
`clip((raw / 60.0) * 100.0, 0, 100)` with
`raw = sqrt(std_rg^2 + std_yb^2) + 0.3 * sqrt(mean_rg^2 + mean_yb^2)`,
where `rg = |R - G|` and `yb = |0.5*(R+G) - B|` per pixel and the standard
deviation and mean are the population statistics over all pixels. -/
theorem C4_colorfulness_formula (img : Img) :
    colorfulness_score img =
      clip (((Real.sqrt
          ((gridStd img.h img.w fun i j =>
              |((img.pix i j).r : ℝ) - (img.pix i j).g|) ^ 2
            + (gridStd img.h img.w fun i j =>
              |0.5 * (((img.pix i j).r : ℝ) + (img.pix i j).g) - (img.pix i j).b|) ^ 2)
        + 0.3 * Real.sqrt
          ((gridMean img.h img.w fun i j =>
              |((img.pix i j).r : ℝ) - (img.pix i j).g|) ^ 2
            + (gridMean img.h img.w fun i j =>
              |0.5 * (((img.pix i j).r : ℝ) + (img.pix i j).g) - (img.pix i j).b|) ^ 2))
        / 60.0) * 100.0) := rfl

/-- Claim C5: the saturation sub-metric is
`clip((mean_saturation / 255.0) * 100.0, 0, 100)` where `mean_saturation` is
the mean over all pixels of the 8-bit saturation channel of the HSV
conversion. -/
theorem C5_saturation_formula (img : Img) :
    saturation_score img =
      clip ((gridMean img.h img.w
        (fun i j => (satChan (img.pix i j) : ℝ)) / 255.0) * 100.0) := rfl

/-- Claim C6: the contrast sub-metric is
`clip((std_luminance / 80.0) * 100.0, 0, 100)` where `std_luminance` is the
population standard deviation over all pixels of the 8-bit grayscale
luminance channel. -/
theorem C6_contrast_formula (img : Img) :
    contrast_score img =
      clip ((gridStd img.h img.w
        (fun i j => (lumChan (img.pix i j) : ℝ)) / 80.0) * 100.0) := rfl

/-- Claim C7: the edge-density sub-metric is `clip(fraction * 100.0, 0, 100)`
where `fraction` is the proportion of pixels of the edge-magnitude image
(grayscale conversion followed by the FIND_EDGES filter) whose 8-bit value
strictly exceeds 30. -/
theorem C7_edge_density_formula (img : Img) :
    edge_density_score img =
      clip (((countOver img.h img.w
          (findEdges img.h img.w fun i j => lumChan (img.pix i j)) 30 : ℝ)
        / (img.h * img.w)) * 100.0) := by
  simp only [edge_density_score, gridMean, gridSum_indicator]

/-- Claim C8: on every successful decode, each of the four sub-metric values
of the reference frame lies in [0, 100], and so does the final combined
score. -/
theorem C8_submetrics_and_score_bounded
    (decode : List ℕ → Option (ℕ → ℕ → Pix)) (bs : List ℕ)
    (p : ℕ → ℕ → Pix) (hd : decode bs = some p) :
    (0 ≤ colorfulness_score (refFrame p) ∧ colorfulness_score (refFrame p) ≤ 100) ∧
    (0 ≤ saturation_score (refFrame p) ∧ saturation_score (refFrame p) ≤ 100) ∧
    (0 ≤ contrast_score (refFrame p) ∧ contrast_score (refFrame p) ≤ 100) ∧
    (0 ≤ edge_density_score (refFrame p) ∧ edge_density_score (refFrame p) ≤ 100) ∧
    (0 ≤ compute_aesthetic_score decode bs ∧ compute_aesthetic_score decode bs ≤ 100) := by
  refine ⟨⟨colorfulness_score_nonneg _, colorfulness_score_le _⟩,
    ⟨saturation_score_nonneg _, saturation_score_le _⟩,
    ⟨contrast_score_nonneg _, contrast_score_le _⟩,
    ⟨edge_density_score_nonneg _, edge_density_score_le _⟩, ?_, ?_⟩ <;>
  rw [score_eq_clip_of_decode decode bs p hd]
  · exact clip_nonneg _
  · exact clip_le_hundred _

theorem C8_witness :
    (0 ≤ colorfulness_score (refFrame constPix) ∧ colorfulness_score (refFrame constPix) ≤ 100) ∧
    (0 ≤ saturation_score (refFrame constPix) ∧ saturation_score (refFrame constPix) ≤ 100) ∧
    (0 ≤ contrast_score (refFrame constPix) ∧ contrast_score (refFrame constPix) ≤ 100) ∧
    (0 ≤ edge_density_score (refFrame constPix) ∧ edge_density_score (refFrame constPix) ≤ 100) ∧
    (0 ≤ compute_aesthetic_score (fun _ => some constPix) [] ∧
      compute_aesthetic_score (fun _ => some constPix) [] ≤ 100) :=
  C8_submetrics_and_score_bounded (fun _ => some constPix) [] constPix rfl

/-- Claim C9: the scorer is deterministic and depends on nothing but the
input bytes: two calls on identical input bytes (with the same decode
behaviour, itself a pure function) return the identical value. -/
theorem C9_deterministic (decode : List ℕ → Option (ℕ → ℕ → Pix))
    (b1 b2 : List ℕ) (hb : b1 = b2) :
    compute_aesthetic_score decode b1 = compute_aesthetic_score decode b2 := by
  rw [hb]

theorem C9_witness :
    compute_aesthetic_score (fun _ => some constPix) [0, 1, 2] =
      compute_aesthetic_score (fun _ => some constPix) [0, 1, 2] :=
  C9_deterministic (fun _ => some constPix) [0, 1, 2] [0, 1, 2] rfl

/-- Claim C10: for sub-metric values in [0, 100] the weighted combination
`0.35*c + 0.25*s + 0.25*co + 0.15*e` already lies in [0, 100] (the weights
are nonnegative and sum to 1), so the final clip of
`compute_aesthetic_score` is the identity on every successful decode: the
score equals the unclipped weighted combination. -/
theorem C10_final_clip_is_identity (c s co e : ℝ)
    (hc0 : 0 ≤ c) (hc1 : c ≤ 100) (hs0 : 0 ≤ s) (hs1 : s ≤ 100)
    (hco0 : 0 ≤ co) (hco1 : co ≤ 100) (he0 : 0 ≤ e) (he1 : e ≤ 100)
    (decode : List ℕ → Option (ℕ → ℕ → Pix)) (bs : List ℕ)
    (p : ℕ → ℕ → Pix) (hd : decode bs = some p) :
    (0 ≤ 0.35 * c + 0.25 * s + 0.25 * co + 0.15 * e ∧
      0.35 * c + 0.25 * s + 0.25 * co + 0.15 * e ≤ 100) ∧
    clip (0.35 * c + 0.25 * s + 0.25 * co + 0.15 * e)
      = 0.35 * c + 0.25 * s + 0.25 * co + 0.15 * e ∧
    compute_aesthetic_score decode bs
      = 0.35 * colorfulness_score (refFrame p)
        + 0.25 * saturation_score (refFrame p)
        + 0.25 * contrast_score (refFrame p)
        + 0.15 * edge_density_score (refFrame p) := by
  refine ⟨⟨wsum_nonneg hc0 hs0 hco0 he0, wsum_le_hundred hc1 hs1 hco1 he1⟩,
    clip_eq_of_mem (wsum_nonneg hc0 hs0 hco0 he0)
      (wsum_le_hundred hc1 hs1 hco1 he1), ?_⟩
  rw [score_eq_clip_of_decode decode bs p hd]
  exact clip_eq_of_mem
    (wsum_nonneg (colorfulness_score_nonneg _) (saturation_score_nonneg _)
      (contrast_score_nonneg _) (edge_density_score_nonneg _))
    (wsum_le_hundred (colorfulness_score_le _) (saturation_score_le _)
      (contrast_score_le _) (edge_density_score_le _))

theorem C10_witness :
    (0 ≤ 0.35 * (50 : ℝ) + 0.25 * 50 + 0.25 * 50 + 0.15 * 50 ∧
      0.35 * (50 : ℝ) + 0.25 * 50 + 0.25 * 50 + 0.15 * 50 ≤ 100) ∧
    clip (0.35 * (50 : ℝ) + 0.25 * 50 + 0.25 * 50 + 0.15 * 50)
      = 0.35 * (50 : ℝ) + 0.25 * 50 + 0.25 * 50 + 0.15 * 50 ∧
    compute_aesthetic_score (fun _ => some constPix) []
      = 0.35 * colorfulness_score (refFrame constPix)
        + 0.25 * saturation_score (refFrame constPix)
        + 0.25 * contrast_score (refFrame constPix)
        + 0.15 * edge_density_score (refFrame constPix) :=
  C10_final_clip_is_identity 50 50 50 50
    (by norm_num) (by norm_num) (by norm_num) (by norm_num)
    (by norm_num) (by norm_num) (by norm_num) (by norm_num)
    (fun _ => some constPix) [] constPix rfl

end FashionAI
